import Mathlib

/-!
Verification development for the `STEPUP_image_analysis` instrument-signature-removal
(ISR) pipeline, `src/ISR/ISR.py`.

Shallow embedding conventions:

* Pixel values are exact rationals (`ℚ`); the float arithmetic of the source is
  modelled by exact rational arithmetic.  An image is a row-major list of rows,
  mirroring the 2-D numpy arrays of the source; per-pixel numpy arithmetic
  (`-`, `/`, `*`) on equally shaped arrays is modelled by `imgZip`/`imgMap`.
  Division by zero and NaN arithmetic inside an image are outside the scope of
  the claims.  Frame data of `none` marks data that is not a well-formed
  finite array.  The one such case the claims reach is the reduction
  (`np.median` along axis 0, `np.average`) of an *empty* stack, which in numpy
  yields a zero-dimensional scalar NaN with only a RuntimeWarning; passing
  that scalar to `fits.PrimaryHDU` raises `TypeError` ("data object should
  have at least one dimension"), modelled by `mkPrimaryHDU` rejecting `none`,
  and `int(nan)` raises `ValueError` (`PyErr.valueErr`).  The model also maps
  a NaN-*contaminated* proper-shape frame (a flat normalized by the mean of an
  empty central region) to `none`; astropy would accept such an array, but
  producing one requires flats of at least 701 × 451 pixels, which no claim's
  concrete path reaches.

* A FITS file is its primary header (only the keys the source ever touches:
  `IMAGETYP`, `EXPTIME`, `FILTER`, `SATLEVEL`) plus its data.  Reading an
  absent key from an astropy header raises `KeyError` (`hget`).

* The filesystem that the source manipulates through `glob`, `os.listdir`,
  `os.mkdir` and `HDUList.writeto` is modelled by `RunState`: the `.fit` files
  of `dirtarget` (`tfiles`) and of `dirdark` (`dfiles`) in listing order, the
  `mcalib` calibration store as an ordered association list (listing order =
  creation order), the `ISR_Images` output tree, and the written science
  outputs.  `os.mkdir` of an existing directory raises `FileExistsError`;
  `writeto` without `overwrite=True` on an existing path raises an error as
  well; `writeto(..., overwrite=True)` replaces.

* Line 107 of the source reads `dark = *= exptime`, which is not valid Python.
  The functions carrying the source's names (`get_unfiltered_calibimages`,
  `get_filtered_calibimages`, `instrument_signature_removal`, `ISR_main`)
  model the module as committed: they fail with `PyErr.parseErr` because the
  module does not parse (see `pyStmtParses`).  The `*_body` functions give the
  semantics of the corresponding function bodies with line 107 read as its
  evident intent `dark *= exptime` (the source's docstring: "subtracts the
  mbias and time-corrects each image"); the behavioural claims about the
  pipeline are settled against these bodies.
-/

attribute [local semireducible] Rat.mul Rat.inv Rat.add Rat.sub

namespace ISRv

/-- Python exceptions the embedded code can raise. -/
inductive PyErr
  | keyError
  | fileExistsErr
  | indexErr
  | typeErr
  | valueErr
  | parseErr
deriving DecidableEq

/-- Decidable equality of `Except` results. -/
instance {ε α : Type} [DecidableEq ε] [DecidableEq α] : DecidableEq (Except ε α) := fun x y =>
  match x, y with
  | Except.error a, Except.error b =>
    if h : a = b then isTrue (congrArg Except.error h)
    else isFalse (fun he => h (Except.error.inj he))
  | Except.ok a, Except.ok b =>
    if h : a = b then isTrue (congrArg Except.ok h)
    else isFalse (fun he => h (Except.ok.inj he))
  | Except.error _, Except.ok _ => isFalse (fun he => Except.noConfusion he)
  | Except.ok _, Except.error _ => isFalse (fun he => Except.noConfusion he)

/-- An image: row-major list of rows of exact-rational pixel values. -/
abbrev Image := List (List ℚ)

/-- Pixelwise combination of two equally shaped images (numpy broadcasting of
equal shapes). -/
def imgZip (f : ℚ → ℚ → ℚ) (a b : Image) : Image :=
  List.zipWith (List.zipWith f) a b

/-- Pixelwise map over an image. -/
def imgMap (f : ℚ → ℚ) (a : Image) : Image :=
  a.map (fun r => r.map f)

/-- All pixels of an image, flattened (numpy reduction without an axis). -/
def pixels (a : Image) : List ℚ :=
  a.flatten

/-- Mean of a list of values (`np.average` / `np.mean` of a nonempty array). -/
def listMean (l : List ℚ) : ℚ :=
  l.sum / l.length

/-- `np.median` of a nonempty 1-D array: sort; middle element for odd length,
average of the two middle elements for even length. -/
def npMedian (l : List ℚ) : ℚ :=
  let s := List.insertionSort (fun a b => a ≤ b) l
  if l.length % 2 = 1 then s.getD (l.length / 2) 0
  else (s.getD (l.length / 2 - 1) 0 + s.getD (l.length / 2) 0) / 2

/-- The values at pixel (j, k) across a stack of images. -/
def stackPix (imgs : List Image) (j k : ℕ) : List ℚ :=
  imgs.map (fun im => (im.getD j []).getD k 0)

/-- Per-pixel aggregation (axis-0 reduction) of a nonempty stack of equally
shaped images; the first image supplies the shape. -/
def stackAgg (g : List ℚ → ℚ) (imgs : List Image) : Image :=
  match imgs with
  | [] => []
  | t :: _ =>
    (List.range t.length).map (fun j =>
      (List.range (t.getD j []).length).map (fun k => stackPix imgs j k))
      |>.map (fun row => row.map g)

/-- Sequence a list of possibly-degenerate frames. -/
def seqImgs : List (Option Image) → Option (List Image)
  | [] => some []
  | none :: _ => none
  | some i :: rest => (seqImgs rest).map (fun is => i :: is)

/-- `np.median(stack, 0)`: per-pixel median; an empty stack (or a stack
contaminated by a NaN frame) yields the degenerate NaN frame `none`. -/
def stackMedianO (l : List (Option Image)) : Option Image :=
  match seqImgs l with
  | none => none
  | some [] => none
  | some (i :: is) => some (stackAgg npMedian (i :: is))

/-- `np.average(stack, 0)`: per-pixel mean, with the same degenerate cases. -/
def stackMeanO (l : List (Option Image)) : Option Image :=
  match seqImgs l with
  | none => none
  | some [] => none
  | some (i :: is) => some (stackAgg listMean (i :: is))

/-- The FITS header keys the source reads or writes. `none` = key absent. -/
structure Header where
  imagetyp : Option String
  exptime : Option ℚ
  filterName : Option String
  satlevel : Option ℤ
deriving DecidableEq

/-- The header `fits.PrimaryHDU` creates when handed `header=None`. -/
def emptyHeader : Header := ⟨none, none, none, none⟩

/-- Header for a written file: the given primary header, or a fresh default. -/
def headerOf : Option Header → Header
  | none => emptyHeader
  | some h => h

/-- Reading a header key: `KeyError` when the key is absent. -/
def hget {α : Type} (v : Option α) : Except PyErr α :=
  match v with
  | none => Except.error PyErr.keyError
  | some a => Except.ok a
/-- A FITS file: primary header plus data. `data = none` is the degenerate
NaN frame produced by reducing an empty stack. -/
structure FitsFile where
  hdr : Header
  data : Option Image
deriving DecidableEq

/-- `fits.PrimaryHDU(data, header=hdr)`: data that is not a well-formed
finite array — in particular the zero-dimensional scalar NaN produced by
reducing an empty stack — is rejected with `TypeError` ("data object should
have at least one dimension"). -/
def mkPrimaryHDU (hdr : Header) (data : Option Image) : Except PyErr FitsFile :=
  match data with
  | none => Except.error PyErr.typeErr
  | some img => Except.ok (FitsFile.mk hdr (some img))

/-- A written science output: filter directory, file name, file. -/
structure OutEntry where
  filterDir : String
  fname : String
  file : FitsFile
deriving DecidableEq

/-- The filesystem state a run manipulates.  `tfiles`/`dfiles` are the `.fit`
files of `dirtarget`/`dirdark` in listing order; `mcalib` is the calibration
store in listing (= creation) order; `isrExists`/`isrDirs` model the
`ISR_Images` tree; `outputs` the written calibrated frames. -/
structure RunState where
  tfiles : List FitsFile
  dfiles : List FitsFile
  mcalibExists : Bool
  mcalib : List (String × FitsFile)
  isrExists : Bool
  isrDirs : List String
  outputs : List OutEntry
deriving DecidableEq

/-- Error-propagating left fold (the sequential loops of the source). -/
def exFold {α β : Type} (f : β → α → Except PyErr β) : β → List α → Except PyErr β
  | b, [] => Except.ok b
  | b, a :: as =>
    match f b a with
    | Except.error e => Except.error e
    | Except.ok b' => exFold f b' as

/-- Lookup in the calibration store. -/
def mcalibLookup : List (String × FitsFile) → String → Option FitsFile
  | [], _ => none
  | (m, f) :: rest, n => if m = n then some f else mcalibLookup rest n

/-- `writeto` without `overwrite`: errors when the path already exists. -/
def writeNew (s : RunState) (n : String) (f : FitsFile) : Except PyErr RunState :=
  match mcalibLookup s.mcalib n with
  | some _ => Except.error PyErr.fileExistsErr
  | none => Except.ok { s with mcalib := s.mcalib ++ [(n, f)] }

/-- Replace-or-append for `writeto(..., overwrite=True)` into `mcalib`. -/
def mcalibReplace : List (String × FitsFile) → String → FitsFile → List (String × FitsFile)
  | [], n, f => [(n, f)]
  | (m, g) :: rest, n, f =>
    if m = n then (m, f) :: rest else (m, g) :: mcalibReplace rest n f

/-- `writeto(..., overwrite=True)` into the calibration store. -/
def writeOver (s : RunState) (n : String) (f : FitsFile) : RunState :=
  { s with mcalib := mcalibReplace s.mcalib n f }

/-- String constants of the source. -/
def biasT : String := "Bias Frame"

def darkT : String := "Dark Frame"

def flatT : String := "Flat Field"

def lightT : String := "Light Frame"

def mbiasName : String := "mbias.fits"

def mdarkName : String := "mdark.fits"

def mflatSuffix : String := "_mflat.fits"

/-! ### The module-level parse failure (line 107)

Line 107 of `src/ISR/ISR.py` is the statement `dark = *= exptime`.  A Python
module is executable only if every statement parses; we model the tokenizer
(the line's tokens are space-separated) and the statement productions that
could possibly accept this token list — expression statements, (chained)
assignments `target = ... = expr`, and augmented assignments `target augop
expr`, over expressions built from atoms and binary operators.  The token `*=`
is an augmented-assignment operator and can occur only immediately after the
target at the start of an augmented assignment, so no production accepts the
line and the module fails to parse. -/

/-- Python tokens relevant to line 107. -/
inductive PyTok
  | name (s : String)
  | eqTok
  | augTok (op : String)
  | binTok (op : String)
deriving DecidableEq

/-- Augmented-assignment operators of Python. -/
def augOps : List String :=
  ["+=", "-=", "*=", "/=", "//=", "%=", "**=", "&=", "|=", "^=", ">>=", "<<="]

/-- Binary operators that may join atoms inside an expression. -/
def binOps : List String :=
  ["+", "-", "*", "/", "//", "%", "**", "&", "|", "^", ">>", "<<"]

/-- Classify one (space-separated) token of the line. -/
def classifyTok (w : String) : PyTok :=
  if w = "=" then PyTok.eqTok
  else if w ∈ augOps then PyTok.augTok w
  else if w ∈ binOps then PyTok.binTok w
  else PyTok.name w

/-- Split a character list into space-separated words. -/
def splitWordsAux : List Char → List Char → List (List Char)
  | [], cur => if cur = [] then [] else [cur.reverse]
  | c :: cs, cur =>
    if c = ' ' then
      (if cur = [] then splitWordsAux cs [] else cur.reverse :: splitWordsAux cs [])
    else splitWordsAux cs (c :: cur)

/-- Tokenize a space-separated source line. -/
def pyTokenize (s : String) : List PyTok :=
  (splitWordsAux s.toList []).map (fun w => classifyTok (String.mk w))

/-- After an atom: consume `(binop atom)*`; any other operator token fails. -/
def parseBinTail : List PyTok → Option (List PyTok)
  | [] => some []
  | PyTok.binTok _ :: PyTok.name _ :: rest => parseBinTail rest
  | PyTok.binTok _ :: _ => none
  | ts => some ts

/-- Parse an expression `atom (binop atom)*`; returns the unconsumed suffix. -/
def parseExprToks : List PyTok → Option (List PyTok)
  | PyTok.name _ :: rest => parseBinTail rest
  | _ => none

/-- Right-hand side of `target =`: an expression, or a further chained
assignment `target = ...`. -/
def isAssignRhs : List PyTok → Bool
  | PyTok.name s :: PyTok.eqTok :: rest =>
    isAssignRhs rest
      || decide (parseExprToks (PyTok.name s :: PyTok.eqTok :: rest) = some [])
  | ts => decide (parseExprToks ts = some [])

/-- Does the token list parse as a Python statement (expression statement,
chained assignment, or augmented assignment)? -/
def pyStmtParses (ts : List PyTok) : Bool :=
  decide (parseExprToks ts = some []) ||
  (match ts with
   | PyTok.name _ :: PyTok.eqTok :: rest => isAssignRhs rest
   | PyTok.name _ :: PyTok.augTok _ :: rest => decide (parseExprToks rest = some [])
   | _ => false)

/-- Line 107 of `src/ISR/ISR.py`. -/
def line107 : String := "dark = *= exptime"

/-- The module executes only if every one of its statements parses; line 107
already fails, so its parse status decides module viability. -/
def moduleParses : Bool :=
  pyStmtParses (pyTokenize line107)

/-! ### get_unfiltered_calibimages (ISR.py lines 39-116) -/

/-- Accumulator of the first loop (lines 74-81): bias data collected so far,
the last bias header seen (`bias_prihdr`), the last light-frame exposure time
seen (`exptime`). -/
structure BScan where
  biases : List (Option Image)
  bhdr : Option Header
  lexp : Option ℚ
deriving DecidableEq

/-- One iteration of the bias/light scan over `dirtarget/*.fit` (lines 74-81):
reading `IMAGETYP` (and, for a light frame, `EXPTIME`) raises `KeyError` when
absent; a bias frame contributes its data and header; any other tag is
ignored. -/
def bscanStep (acc : BScan) (f : FitsFile) : Except PyErr BScan :=
  match f.hdr.imagetyp with
  | none => Except.error PyErr.keyError
  | some t =>
    let acc1 := if t = biasT then BScan.mk (acc.biases ++ [f.data]) (some f.hdr) acc.lexp else acc
    if t = lightT then
      match f.hdr.exptime with
      | none => Except.error PyErr.keyError
      | some e => Except.ok (BScan.mk acc1.biases acc1.bhdr (some e))
    else Except.ok acc1

/-- Accumulator of the dark scan (lines 93-98): dark data, last dark header
(`dark_prihdr`), last dark exposure time (`dark_exptime`). -/
structure DScan where
  darks : List (Option Image)
  dhdr : Option Header
  dexp : Option ℚ
deriving DecidableEq

/-- One iteration of the dark scan over `dirdark/*.fit` (lines 93-98). -/
def dscanStep (acc : DScan) (f : FitsFile) : Except PyErr DScan :=
  match f.hdr.imagetyp with
  | none => Except.error PyErr.keyError
  | some t =>
    if t = darkT then
      match f.hdr.exptime with
      | none => Except.error PyErr.keyError
      | some e => Except.ok (DScan.mk (acc.darks ++ [f.data]) (some f.hdr) (some e))
    else Except.ok acc

/-- The dark-rescaling loop (lines 102-107) with line 107 read as its evident
intent `dark *= exptime`: each dark is bias-subtracted, divided by the single
`dark_exptime` (the exposure of the *last* dark scanned), and multiplied by
the light exposure.  An empty stack skips the loop; with a nonempty stack a
`None` operand (no light frame seen, so `exptime is None`) raises `TypeError`;
a NaN master bias contaminates the frames into NaN frames. -/
def rescaleDarks (darks : List (Option Image)) (mbias : Option Image)
    (dexp lexp : Option ℚ) : Except PyErr (List (Option Image)) :=
  match darks with
  | [] => Except.ok []
  | _ :: _ =>
    match dexp, lexp with
    | some de, some e =>
      Except.ok (darks.map (fun od =>
        match od, mbias with
        | some d, some b =>
          some (imgMap (fun x => x / de * e) (imgZip (fun x y => x - y) d b))
        | _, _ => none))
    | _, _ => Except.error PyErr.typeErr

/-- Body of `get_unfiltered_calibimages` (lines 61-116): create `mcalib`
(`FileExistsError` if present), scan `dirtarget` for biases and the light
exposure time, construct the master-bias HDU (line 88 — `TypeError` when the
bias stack was empty and `np.median` yielded a scalar NaN) and write it (no
`overwrite`), scan `dirdark` for darks, rescale them, construct the
master-dark HDU (line 112 — same `TypeError` for an empty dark stack) and
write it (`overwrite=True`).  Returns the light exposure time. -/
def get_unfiltered_body (s : RunState) : Except PyErr (RunState × Option ℚ) :=
  if s.mcalibExists then Except.error PyErr.fileExistsErr else
  let s1 : RunState := { s with mcalibExists := true, mcalib := [] }
  match exFold bscanStep (BScan.mk [] none none) s.tfiles with
  | Except.error e => Except.error e
  | Except.ok b =>
    let mb := stackMedianO b.biases
    match mkPrimaryHDU (headerOf b.bhdr) mb with
    | Except.error e => Except.error e
    | Except.ok hdu1 =>
      match writeNew s1 mbiasName hdu1 with
      | Except.error e => Except.error e
      | Except.ok s2 =>
        match exFold dscanStep (DScan.mk [] none none) s.dfiles with
        | Except.error e => Except.error e
        | Except.ok d =>
          match rescaleDarks d.darks mb d.dexp b.lexp with
          | Except.error e => Except.error e
          | Except.ok rs =>
            match mkPrimaryHDU (headerOf d.dhdr) (stackMedianO rs) with
            | Except.error e => Except.error e
            | Except.ok hdu2 => Except.ok (writeOver s2 mdarkName hdu2, b.lexp)

/-! ### get_filtered_calibimages (ISR.py lines 119-190) -/

/-- One iteration of the master-bias retrieval over `mcalib/*.fits`
(lines 147-151). -/
def mbScanStep (acc : List (Option Image)) (nf : String × FitsFile) :
    Except PyErr (List (Option Image)) :=
  match nf.2.hdr.imagetyp with
  | none => Except.error PyErr.keyError
  | some t => Except.ok (if t = biasT then acc ++ [nf.2.data] else acc)

/-- One iteration of the filter-collection loop (lines 156-161): flats and
lights contribute their `FILTER` value (KeyError when absent); Python-set
insertion is modelled as first-insertion order. -/
def filScanStep (acc : List String) (f : FitsFile) : Except PyErr (List String) :=
  match f.hdr.imagetyp with
  | none => Except.error PyErr.keyError
  | some t =>
    if t = flatT ∨ t = lightT then
      match f.hdr.filterName with
      | none => Except.error PyErr.keyError
      | some fl => Except.ok (if fl ∈ acc then acc else acc ++ [fl])
    else Except.ok acc

/-- Accumulator of the per-filter flat collection (lines 167-173). -/
structure FScan where
  flats : List (Option Image)
  fhdr : Option Header
deriving DecidableEq

/-- One iteration of the flat collection for filter `i`: the `FILTER` key is
read only for `Flat Field` files (Python's short-circuiting `and`). -/
def flatScanStep (i : String) (acc : FScan) (f : FitsFile) : Except PyErr FScan :=
  match f.hdr.imagetyp with
  | none => Except.error PyErr.keyError
  | some t =>
    if t = flatT then
      match f.hdr.filterName with
      | none => Except.error PyErr.keyError
      | some fl =>
        Except.ok (if fl = i then FScan.mk (acc.flats ++ [f.data]) (some f.hdr) else acc)
    else Except.ok acc

/-- The fixed central sub-region `flat[700:1348, 450:3622]` (line 180),
with Python slice clamping. -/
def centralRegion (img : Image) : List ℚ :=
  (((img.drop 700).take 648).map (fun r => (r.drop 450).take 3172)).flatten

/-- Normalization of one flat (lines 178-180): subtract the master bias, then
divide by the mean of the already-subtracted flat's central region.  An empty
region gives a NaN mean (numpy warns and yields NaN), contaminating the whole
frame; a NaN operand likewise. -/
def normalizeFlat (mb0 : Option Image) (of : Option Image) : Option Image :=
  match of, mb0 with
  | some f, some b =>
    let sub := imgZip (fun x y => x - y) f b
    let reg := centralRegion sub
    if reg.length = 0 then none
    else some (imgMap (fun x => x / listMean reg) sub)
  | _, _ => none

/-- Build one filter's master flat (lines 175-182): an empty stack skips the
normalization loop and `np.average` of the empty stack silently yields the
degenerate scalar-NaN result `none` (a warning only; the write at line 185
rejects it later); with a nonempty stack, `mbias_array[0]` raises
`IndexError` when no master bias was retrieved. -/
def buildFlat (mb : List (Option Image)) (flats : List (Option Image)) :
    Except PyErr (Option Image) :=
  match flats with
  | [] => Except.ok none
  | _ :: _ =>
    match mb with
    | [] => Except.error PyErr.indexErr
    | mb0 :: _ => Except.ok (stackMeanO (flats.map (normalizeFlat mb0)))

/-- One iteration of the per-filter loop (lines 163-188): collect the filter's
flats from the (unchanging) `dirtarget` listing, build the master flat,
construct its HDU (line 185 — `TypeError` for the scalar-NaN result of an
empty stack), and write `<filter>_mflat.fits` with `overwrite=True`. -/
def filStep (tfs : List FitsFile) (mb : List (Option Image)) (s : RunState)
    (i : String) : Except PyErr RunState :=
  match exFold (flatScanStep i) (FScan.mk [] none) tfs with
  | Except.error e => Except.error e
  | Except.ok fs =>
    match buildFlat mb fs.flats with
    | Except.error e => Except.error e
    | Except.ok mf =>
      match mkPrimaryHDU (headerOf fs.fhdr) mf with
      | Except.error e => Except.error e
      | Except.ok hdu => Except.ok (writeOver s (i ++ mflatSuffix) hdu)

/-- Body of `get_filtered_calibimages` (lines 139-190): retrieve the master
bias list from `mcalib`, collect the filters of all flats and lights, and per
filter build and write the master flat.  Returns the filter list. -/
def get_filtered_body (s : RunState) : Except PyErr (RunState × List String) :=
  match exFold mbScanStep [] s.mcalib with
  | Except.error e => Except.error e
  | Except.ok mb =>
    match exFold filScanStep [] s.tfiles with
    | Except.error e => Except.error e
    | Except.ok fils =>
      match exFold (filStep s.tfiles mb) s fils with
      | Except.error e => Except.error e
      | Except.ok s' => Except.ok (s', fils)

/-! ### instrument_signature_removal (ISR.py lines 193-280) -/

/-- The accumulator lists of `instrument_signature_removal` (lines 219-222):
initialized once *before* the per-filter loop and never cleared; `dexp` is
`dark_exptime`. -/
structure IsrAcc where
  mflat : List (Option Image)
  mbias : List (Option Image)
  mdark : List (Option Image)
  dexp : Option ℚ
deriving DecidableEq

/-- The empty initial accumulator (lines 219-222). -/
def iniAcc : IsrAcc := IsrAcc.mk [] [] [] none

/-- One iteration of the `mcalib` scan (lines 225-237): a bias contributes to
`mbias`, a dark to `mdark` (also setting `dark_exptime`; `KeyError` when its
`EXPTIME` is absent), a flat whose `FILTER` equals the current filter to
`mflat` (`KeyError` when a flat's `FILTER` is absent). -/
def isrScanStep (fil : String) (acc : IsrAcc) (nf : String × FitsFile) :
    Except PyErr IsrAcc :=
  match nf.2.hdr.imagetyp with
  | none => Except.error PyErr.keyError
  | some t =>
    let a1 := if t = biasT then IsrAcc.mk acc.mflat (acc.mbias ++ [nf.2.data]) acc.mdark acc.dexp
              else acc
    if t = darkT then
      match nf.2.hdr.exptime with
      | none => Except.error PyErr.keyError
      | some e => Except.ok (IsrAcc.mk a1.mflat a1.mbias (a1.mdark ++ [nf.2.data]) (some e))
    else if t = flatT then
      match nf.2.hdr.filterName with
      | none => Except.error PyErr.keyError
      | some fl =>
        Except.ok (if fl = fil then IsrAcc.mk (a1.mflat ++ [nf.2.data]) a1.mbias a1.mdark a1.dexp
                   else a1)
    else Except.ok a1

/-- Python's `int()` on a rational: truncation toward zero. -/
def pyInt (q : ℚ) : ℤ :=
  q.num.tdiv q.den

/-- The expected-saturation computation (lines 248-253):
`int(((65535 - median(mbias) - median(mdark*exptime/dark_exptime)) / average(mflat)) * 0.97)`.
A `None` exposure operand raises `TypeError` (lines 250); `int(nan)` — any
degenerate NaN master — raises `ValueError` (line 253). -/
def saturationOf (mb md mf : Option Image) (lexp dexp : Option ℚ) : Except PyErr ℤ :=
  match lexp with
  | none => Except.error PyErr.typeErr
  | some e =>
    match dexp with
    | none => Except.error PyErr.typeErr
    | some de =>
      match mb, md, mf with
      | some b, some d, some f =>
        Except.ok (pyInt ((((65535 : ℚ) - npMedian (pixels b)
          - npMedian (pixels (imgMap (fun x => x * e / de) d))) / listMean (pixels f))
          * (97 / 100)))
      | _, _, _ => Except.error PyErr.valueErr

/-- The per-pixel correction (lines 269-273): float conversion, subtract the
master bias, subtract the (un-rescaled) master dark, divide by the master
flat.  Any NaN operand yields a NaN frame (written without error). -/
def calibData (li mb md mf : Option Image) : Option Image :=
  match li, mb, md, mf with
  | some i, some b, some d, some f =>
    some (imgZip (fun x y => x / y)
      (imgZip (fun x y => x - y) (imgZip (fun x y => x - y) i b) d) f)
  | _, _, _, _ => none

/-- Decimal digit character. -/
def digitChar (d : ℕ) : Char :=
  if d = 0 then '0' else if d = 1 then '1' else if d = 2 then '2' else if d = 3 then '3'
  else if d = 4 then '4' else if d = 5 then '5' else if d = 6 then '6' else if d = 7 then '7'
  else if d = 8 then '8' else '9'

/-- Decimal digits of `n`, fuel-driven (fuel `n + 1` always suffices). -/
def natChars : ℕ → ℕ → List Char
  | 0, _ => []
  | fuel + 1, n =>
    if n < 10 then [digitChar n]
    else natChars fuel (n / 10) ++ [digitChar (n % 10)]

/-- Python's `str(n)` for a natural number. -/
def natStr (n : ℕ) : String :=
  String.mk (natChars (n + 1) n)

/-- Output path component `<target>_<filter>_<n>.fits` (lines 277-279). -/
def outName (target fil : String) (n : ℕ) : String :=
  target ++ "_" ++ fil ++ "_" ++ natStr n ++ ".fits"

/-- Replace-or-append for `writeto(..., overwrite=True)` of a science output. -/
def outReplace : List OutEntry → String → String → FitsFile → List OutEntry
  | [], d, n, f => [OutEntry.mk d n f]
  | o :: rest, d, n, f =>
    if o.filterDir = d ∧ o.fname = n then OutEntry.mk d n f :: rest
    else o :: outReplace rest d n f

/-- Write one calibrated frame under `ISR_Images/<fil>/`. -/
def writeOut (s : RunState) (dir name : String) (f : FitsFile) : RunState :=
  { s with outputs := outReplace s.outputs dir name f }

/-- One iteration of the light-frame loop (lines 259-280), at listing index
`n`: a `.fit` file that is a light frame of the current filter gets
`SATLEVEL` added to its header, is calibrated, its HDU constructed (line 275)
and written (`overwrite=True`).  Reading an absent `IMAGETYP` (any file) or
`FILTER` (a light frame) raises `KeyError`.  The model enumerates the `.fit`
files only, whereas `os.listdir` also yields the `mcalib`/`ISR_Images`
directory entries, so real indices in output names can be shifted — the
naming scheme and per-frame distinctness are unaffected. -/
def lightStep (fil target : String) (sat : ℤ) (mb md mf : Option Image)
    (s : RunState) (nf : ℕ × FitsFile) : Except PyErr RunState :=
  match nf.2.hdr.imagetyp with
  | none => Except.error PyErr.keyError
  | some t =>
    if t = lightT then
      match nf.2.hdr.filterName with
      | none => Except.error PyErr.keyError
      | some fl =>
        if fl = fil then
          match mkPrimaryHDU
              (Header.mk nf.2.hdr.imagetyp nf.2.hdr.exptime nf.2.hdr.filterName (some sat))
              (calibData nf.2.data mb md mf) with
          | Except.error e => Except.error e
          | Except.ok hdu => Except.ok (writeOut s fil (outName target fil nf.1) hdu)
        else Except.ok s
    else Except.ok s

/-- One iteration of the per-filter loop (lines 223-280): scan `mcalib` into
the (never-cleared) accumulators, select element `[0]` of each list
(`IndexError` when empty), compute the saturation, create `ISR_Images` and
`ISR_Images/<fil>` (`FileExistsError` when already present — `ISR_Images` is
created anew *inside* the loop), then calibrate and write every light frame of
the filter. -/
def isrFilterStep (tfs : List FitsFile) (mcal : List (String × FitsFile))
    (target : String) (lexp : Option ℚ) (sa : RunState × IsrAcc) (fil : String) :
    Except PyErr (RunState × IsrAcc) :=
  match exFold (isrScanStep fil) sa.2 mcal with
  | Except.error e => Except.error e
  | Except.ok acc =>
    match acc.mbias with
    | [] => Except.error PyErr.indexErr
    | mb :: _ =>
      match acc.mdark with
      | [] => Except.error PyErr.indexErr
      | md :: _ =>
        match acc.mflat with
        | [] => Except.error PyErr.indexErr
        | mf :: _ =>
          match saturationOf mb md mf lexp acc.dexp with
          | Except.error e => Except.error e
          | Except.ok sat =>
            if sa.1.isrExists then Except.error PyErr.fileExistsErr else
            let s1 : RunState := { sa.1 with isrExists := true }
            if fil ∈ s1.isrDirs then Except.error PyErr.fileExistsErr else
            let s2 : RunState := { s1 with isrDirs := s1.isrDirs ++ [fil] }
            match exFold (lightStep fil target sat mb md mf) s2 tfs.enum with
            | Except.error e => Except.error e
            | Except.ok s3 => Except.ok (s3, acc)

/-- Body of `instrument_signature_removal` (lines 219-280): fold the
per-filter iteration over `image_filters`, threading the directory state and
the shared accumulators. -/
def instrument_signature_removal_body (s : RunState) (target : String)
    (lexp : Option ℚ) (fils : List String) : Except PyErr RunState :=
  match exFold (isrFilterStep s.tfiles s.mcalib target lexp) (s, iniAcc) fils with
  | Except.error e => Except.error e
  | Except.ok sa => Except.ok sa.1

/-- Body of `ISR_main` (lines 29-36): the three stages in sequence. -/
def ISR_main_body (s : RunState) (target : String) :
    Except PyErr (RunState × List String) :=
  match get_unfiltered_body s with
  | Except.error e => Except.error e
  | Except.ok se =>
    match get_filtered_body se.1 with
    | Except.error e => Except.error e
    | Except.ok sf =>
      match instrument_signature_removal_body sf.1 target se.2 sf.2 with
      | Except.error e => Except.error e
      | Except.ok s3 => Except.ok (s3, sf.2)

/-! ### The module as committed: nothing runs because the module fails to
parse (line 107). -/

/-- `get_unfiltered_calibimages` of the committed module. -/
def get_unfiltered_calibimages (s : RunState) : Except PyErr (RunState × Option ℚ) :=
  if moduleParses then get_unfiltered_body s else Except.error PyErr.parseErr

/-- `get_filtered_calibimages` of the committed module. -/
def get_filtered_calibimages (s : RunState) : Except PyErr (RunState × List String) :=
  if moduleParses then get_filtered_body s else Except.error PyErr.parseErr

/-- `instrument_signature_removal` of the committed module. -/
def instrument_signature_removal (s : RunState) (target : String)
    (lexp : Option ℚ) (fils : List String) : Except PyErr RunState :=
  if moduleParses then instrument_signature_removal_body s target lexp fils
  else Except.error PyErr.parseErr

/-- `ISR_main` of the committed module. -/
def ISR_main (s : RunState) (target : String) : Except PyErr (RunState × List String) :=
  if moduleParses then ISR_main_body s target else Except.error PyErr.parseErr

/-! ### Spec-side descriptions used to state the claims -/

/-- The data of the `Bias Frame`-tagged files of a listing, in order (the
spec's "bias stack"). -/
def biasDatas (l : List FitsFile) : List (Option Image) :=
  l.filterMap (fun f => if f.hdr.imagetyp = some biasT then some f.data else none)

/-- The data of the `Bias Frame`-tagged calibration files, in listing order. -/
def collectBias (mcal : List (String × FitsFile)) : List (Option Image) :=
  mcal.filterMap (fun nf => if nf.2.hdr.imagetyp = some biasT then some nf.2.data else none)

/-- The data of the `Dark Frame`-tagged calibration files, in listing order. -/
def collectDark (mcal : List (String × FitsFile)) : List (Option Image) :=
  mcal.filterMap (fun nf => if nf.2.hdr.imagetyp = some darkT then some nf.2.data else none)

/-- The data of the `Flat Field`-tagged calibration files carrying filter
`fil`, in listing order. -/
def collectFlat (fil : String) (mcal : List (String × FitsFile)) : List (Option Image) :=
  mcal.filterMap (fun nf =>
    if nf.2.hdr.imagetyp = some flatT ∧ nf.2.hdr.filterName = some fil then some nf.2.data
    else none)

/-- The `EXPTIME` of the last `Dark Frame`-tagged calibration file. -/
def lastDexp : List (String × FitsFile) → Option ℚ
  | [] => none
  | nf :: rest =>
    match lastDexp rest with
    | some e => some e
    | none => if nf.2.hdr.imagetyp = some darkT then nf.2.hdr.exptime else none

/-- First-defined choice of two optional values. -/
def orD (x d : Option ℚ) : Option ℚ :=
  match x with
  | some e => some e
  | none => d

/-- Headers of a calibration listing good enough for the `mcalib` scan of
`instrument_signature_removal` to finish without a `KeyError`. -/
def mcalScanOK : List (String × FitsFile) → Bool
  | [] => true
  | nf :: rest =>
    ((match nf.2.hdr.imagetyp with
      | none => false
      | some t =>
        (if t = darkT then nf.2.hdr.exptime.isSome else true)
          && (if t = flatT then nf.2.hdr.filterName.isSome else true))
      && mcalScanOK rest)

/-! ### Concrete frames and run states used by the claims -/

/-- Filter name `V`. -/
def filV : String := "V"

/-- Filter name `R`. -/
def filR : String := "R"

/-- A target name. -/
def targetName : String := "t"

/-- A bias-frame header. -/
def biasHdr : Header := Header.mk (some biasT) none none none

/-- A dark-frame header with exposure time `e`. -/
def darkHdr (e : ℚ) : Header := Header.mk (some darkT) (some e) none none

/-- A flat-field header with filter `fl`. -/
def flatHdr (fl : String) : Header := Header.mk (some flatT) none (some fl) none

/-- A light-frame header with exposure time `e` and filter `fl`. -/
def lightHdr (e : ℚ) (fl : String) : Header := Header.mk (some lightT) (some e) (some fl) none

/-- A bias frame with image `img`. -/
def mkBias (img : Image) : FitsFile := FitsFile.mk biasHdr (some img)

/-- A dark frame with exposure `e` and image `img`. -/
def mkDark (e : ℚ) (img : Image) : FitsFile := FitsFile.mk (darkHdr e) (some img)

/-- A flat field with filter `fl` and image `img`. -/
def mkFlat (fl : String) (img : Image) : FitsFile := FitsFile.mk (flatHdr fl) (some img)

/-- A light frame with exposure `e`, filter `fl` and image `img`. -/
def mkLight (e : ℚ) (fl : String) (img : Image) : FitsFile := FitsFile.mk (lightHdr e fl) (some img)

/-- A fresh run directory: `.fit` files only, no `mcalib`, no `ISR_Images`. -/
def freshState (tfs dfs : List FitsFile) : RunState := RunState.mk tfs dfs false [] false [] []

/-- A directory state as `instrument_signature_removal` finds it: `mcalib`
populated, `ISR_Images` not yet created. -/
def isrState (tfs : List FitsFile) (mcal : List (String × FitsFile)) : RunState :=
  RunState.mk tfs [] true mcal false [] []

/-- C1's run: one zero bias, one 60 s `V` light, two 30 s darks of pixel
values 5 and 7 (the claim's example: rescaling to 60 s gives 10 and 14,
median 12). -/
def c1State : RunState :=
  freshState [mkBias [[0]], mkLight 60 filV [[100]]] [mkDark 30 [[5]], mkDark 30 [[7]]]

/-- A calibration store with master bias 0, master dark 10 at reference
exposure 30 s, and a `V` master flat of 1. -/
def c2Mcal : List (String × FitsFile) :=
  [(mbiasName, FitsFile.mk biasHdr (some [[0]])),
   (mdarkName, FitsFile.mk (darkHdr 30) (some [[10]])),
   (filV ++ mflatSuffix, FitsFile.mk (flatHdr filV) (some [[1]]))]

/-- C2's run: a single 15 s `V` light frame of pixel value 100, calibrated
with `exptime = 60` (the pipeline-global light exposure). -/
def c2State : RunState := isrState [mkLight 15 filV [[100]]] c2Mcal

/-- Parametric single-filter calibration store over master images `b`, `d`
(reference exposure `de`), `fl`. -/
def oneFilterMcal (b d fl : Image) (de : ℚ) : List (String × FitsFile) :=
  [(mbiasName, FitsFile.mk biasHdr (some b)),
   (mdarkName, FitsFile.mk (darkHdr de) (some d)),
   (filV ++ mflatSuffix, FitsFile.mk (flatHdr filV) (some fl))]

/-- Parametric run with one `V` light frame (exposure `eL`, image `li`). -/
def oneLightState (b d fl li : Image) (de eL : ℚ) : RunState :=
  isrState [mkLight eL filV li] (oneFilterMcal b d fl de)

/-- Parametric run with two `V` light frames and one `R` light frame in
between (the `R` frame is skipped in a `V` calibration pass). -/
def threeLightState (b d fl li1 li2 li3 : Image) (de e1 e2 e3 : ℚ) : RunState :=
  isrState [mkLight e1 filV li1, mkLight e2 filR li2, mkLight e3 filV li3]
    (oneFilterMcal b d fl de)

/-- C4's run: three biases of pixel values 10, 1000 (a one-pixel outlier) and
11, plus a light frame and one dark frame. -/
def c4State : RunState :=
  freshState [mkBias [[10]], mkBias [[1000]], mkBias [[11]], mkLight 60 filV [[100]]]
    [mkDark 30 [[2]]]

/-- The directory state `get_unfiltered_calibimages` leaves behind on C4's
run: master bias 11 (the per-pixel median; the outlier is rejected), master
dark `(2 − 11) / 30 · 60 = −18`. -/
def c4Result : RunState :=
  RunState.mk [mkBias [[10]], mkBias [[1000]], mkBias [[11]], mkLight 60 filV [[100]]]
    [mkDark 30 [[2]]]
    true [(mbiasName, FitsFile.mk biasHdr (some [[11]])),
      (mdarkName, FitsFile.mk (darkHdr 30) (some [[-18]]))]
    false [] []

/-- C5's bias-less run: a single light frame, no bias frames. -/
def c5aState : RunState := freshState [mkLight 60 filV [[100]]] []

/-- C5's dark-less run: a bias and a light frame, but no dark frames. -/
def c5cState : RunState := freshState [mkBias [[0]], mkLight 60 filV [[100]]] []

/-- A well-formed calibration store holding only master bias and master dark. -/
def c5bMcal : List (String × FitsFile) :=
  [(mbiasName, FitsFile.mk biasHdr (some [[0]])), (mdarkName, FitsFile.mk (darkHdr 30) (some [[1]]))]

/-- C5's flat-less run: filter `V` appears on a light frame but no flat field
exists for it. -/
def c5bState : RunState :=
  RunState.mk [mkBias [[0]], mkLight 60 filV [[100]]] [] true c5bMcal false [] []

/-- A file whose `IMAGETYP` key is missing entirely. -/
def noTagFile : FitsFile := FitsFile.mk (Header.mk none (some 1) none none) (some [[1]])

/-- C6's run with a missing type tag in the target directory. -/
def c6mState : RunState := freshState [noTagFile] []

/-- C6's unrecognized type-tag value. -/
def junkTag : String := "Junk"

/-- A frame tagged with the unrecognized `IMAGETYP` value `Junk`. -/
def junkFile : FitsFile := FitsFile.mk (Header.mk (some junkTag) (some 9) (some filR) none) (some [[7]])

/-- Base state for C6's witness run (its `tfiles` get replaced). -/
def c6wBase : RunState := freshState [] []

/-- C7's rerun state: `mcalib` already exists (line 64 of a first invocation
creates it before anything else). -/
def c7State : RunState :=
  RunState.mk [mkBias [[0]], mkLight 60 filV [[100]]] [mkDark 30 [[5]]] true c5bMcal false [] []

/-- A calibration store with master flats for two filters `V` and `R`. -/
def c9Mcal : List (String × FitsFile) :=
  c2Mcal ++ [(filR ++ mflatSuffix, FitsFile.mk (flatHdr filR) (some [[2]]))]

/-- C9's run: two filters `V` and `R` in `image_filters`. -/
def c9State : RunState := isrState [mkLight 15 filV [[100]]] c9Mcal

/-- The accumulator after C9's first (filter `V`) iteration. -/
def c9Acc1 : IsrAcc := IsrAcc.mk [some [[1]]] [some [[0]]] [some [[10]]] (some 30)

/-- The directory state after C9's first (filter `V`) iteration. -/
def c9S1 : RunState :=
  RunState.mk [mkLight 15 filV [[100]]] [] true c9Mcal true [filV]
    [OutEntry.mk filV (outName targetName filV 0)
      (FitsFile.mk (Header.mk (some lightT) (some 15) (some filV) (some 63549)) (some [[90]]))]

/-- C10's run: like C9's but with an `R` light frame present as well, whose
calibration the claim is about. -/
def c10State : RunState :=
  isrState [mkLight 15 filV [[100]], mkLight 15 filR [[200]]] c9Mcal

/-- The accumulator after C10's first (filter `V`) iteration. -/
def c10Acc1 : IsrAcc := IsrAcc.mk [some [[1]]] [some [[0]]] [some [[10]]] (some 30)

/-- The directory state after C10's first (filter `V`) iteration: only the
`V` light frame has been calibrated. -/
def c10S1 : RunState :=
  RunState.mk [mkLight 15 filV [[100]], mkLight 15 filR [[200]]] [] true c9Mcal true [filV]
    [OutEntry.mk filV (outName targetName filV 0)
      (FitsFile.mk (Header.mk (some lightT) (some 15) (some filV) (some 63549)) (some [[90]]))]

/-! ## Claim theorems -/

/-- C8: the statement `dark = *= exptime` on line 107 is not valid Python, so
the module fails to parse; every pipeline operation (`ISR_main`,
`get_unfiltered_calibimages`, `get_filtered_calibimages`,
`instrument_signature_removal`) fails before executing, for every input, and
no master frame or calibrated frame is ever produced. -/
theorem C8_module_fails_to_parse :
    moduleParses = false
    ∧ (∀ s : RunState, get_unfiltered_calibimages s = Except.error PyErr.parseErr)
    ∧ (∀ s : RunState, get_filtered_calibimages s = Except.error PyErr.parseErr)
    ∧ (∀ (s : RunState) (t : String) (e : Option ℚ) (fs : List String),
        instrument_signature_removal s t e fs = Except.error PyErr.parseErr)
    ∧ (∀ (s : RunState) (t : String), ISR_main s t = Except.error PyErr.parseErr) := by
  have h : moduleParses = false := by decide
  refine ⟨h, fun s => ?_, fun s => ?_, fun s t e fs => ?_, fun s t => ?_⟩ <;>
    simp [get_unfiltered_calibimages, get_filtered_calibimages,
      instrument_signature_removal, ISR_main, h]

/-- C1 (code bug): the claimed master-dark construction — subtract the master
bias, divide by the dark's exposure, multiply by the light exposure, per-pixel
median (darks 5 and 7 at 30 s rescaled to 60 s yield 12) — never runs:
the committed rescaling statement (line 107, `dark = *= exptime`) is a
`SyntaxError`, so `get_unfiltered_calibimages` fails on the claim's own
example input.  The second conjunct evaluates the function's body with the
evident intent `dark *= exptime` restored: it then produces exactly the
claimed master dark of 12. -/
theorem C1_dark_rescale_code_bug :
    get_unfiltered_calibimages c1State = Except.error PyErr.parseErr
    ∧ (get_unfiltered_body c1State).toOption.bind
        (fun p => (mcalibLookup p.1.mcalib mdarkName).map FitsFile.data) = some (some [[12]]) :=
  ⟨by decide, by decide⟩

/-- C2 (counterexample): a 15 s `V` light frame of value 100, master bias 0,
master dark 10 stored at reference exposure 30 s, master flat 1.  The claim's
per-frame rescaling would subtract `10 * 15/30 = 5` and give 95; the code
subtracts the stored master dark unchanged and gives 90. -/
theorem C2_own_exposure_counterexample :
    (instrument_signature_removal_body c2State targetName (some 60) [filV]).toOption.map
      (fun s => s.outputs.map (fun o => o.file.data)) = some [some [[90]]]
    ∧ ¬ ((instrument_signature_removal_body c2State targetName (some 60) [filV]).toOption.map
      (fun s => s.outputs.map (fun o => o.file.data)) = some [some [[95]]]) :=
  ⟨by decide, by decide⟩

/-- C2 (amended): for every light frame tagged with filter `f`, the
calibrated image is produced by, in this order: converting pixel data to
floating point, subtracting MasterBias, subtracting MasterDark *exactly as
stored* (no rescaling to the frame's own exposure time), then dividing by
MasterFlat — light frames of differing exposure times in one run all receive
the identical stored dark correction. -/
theorem C2_calibration_order (b d fl li1 li2 li3 : Image) (de e1 e2 e3 e : ℚ) :
    (instrument_signature_removal_body (threeLightState b d fl li1 li2 li3 de e1 e2 e3)
        targetName (some e) [filV]).toOption.map
      (fun s => s.outputs.map (fun o => (o.fname, o.file.data))) =
    some [(outName targetName filV 0, some (imgZip (fun x y => x / y)
        (imgZip (fun x y => x - y) (imgZip (fun x y => x - y) li1 b) d) fl)),
      (outName targetName filV 2, some (imgZip (fun x y => x / y)
        (imgZip (fun x y => x - y) (imgZip (fun x y => x - y) li3 b) d) fl))] :=
  rfl

/-- C3: for each filter, the saturation level equals
`int(0.97 * ((65535 - median(MasterBias) - median(MasterDark * lightExposure / darkReferenceExposure)) / mean(MasterFlat)))`
(truncation toward zero), and this one value is stored in the `SATLEVEL`
metadata field of every calibrated output for that filter (here: both `V`
outputs of a run whose lights have arbitrary own exposures; the `R` frame
produces no `V` output). -/
theorem C3_satlevel_formula (b d fl li1 li2 li3 : Image) (de e1 e2 e3 e : ℚ) :
    (instrument_signature_removal_body (threeLightState b d fl li1 li2 li3 de e1 e2 e3)
        targetName (some e) [filV]).toOption.map
      (fun s => s.outputs.map (fun o => o.file.hdr.satlevel)) =
    some [some (pyInt ((97 / 100) * (((65535 : ℚ) - npMedian (pixels b)
        - npMedian (pixels (imgMap (fun x => x * e / de) d))) / listMean (pixels fl)))),
      some (pyInt ((97 / 100) * (((65535 : ℚ) - npMedian (pixels b)
        - npMedian (pixels (imgMap (fun x => x * e / de) d))) / listMean (pixels fl))))] := by
  have h : (instrument_signature_removal_body (threeLightState b d fl li1 li2 li3 de e1 e2 e3)
        targetName (some e) [filV]).toOption.map
      (fun s => s.outputs.map (fun o => o.file.hdr.satlevel)) =
    some [some (pyInt ((((65535 : ℚ) - npMedian (pixels b)
        - npMedian (pixels (imgMap (fun x => x * e / de) d))) / listMean (pixels fl)) * (97 / 100))),
      some (pyInt ((((65535 : ℚ) - npMedian (pixels b)
        - npMedian (pixels (imgMap (fun x => x * e / de) d))) / listMean (pixels fl)) * (97 / 100)))] :=
    rfl
  rw [h, mul_comm]

/-- One bias/light scan step contributes exactly the data of a
`Bias Frame`-tagged file to the bias stack. -/
theorem bscanStep_ok_biases (acc : BScan) (f : FitsFile) (acc' : BScan)
    (h : bscanStep acc f = Except.ok acc') :
    acc'.biases = acc.biases ++ (if f.hdr.imagetyp = some biasT then [f.data] else []) := by
  unfold bscanStep at h
  cases hf : f.hdr.imagetyp with
  | none => rw [hf] at h; cases h
  | some t =>
    rw [hf] at h
    dsimp only at h
    by_cases hl : t = lightT
    · have hb : ¬ (t = biasT) := by rw [hl]; decide
      rw [if_pos hl] at h
      cases he : f.hdr.exptime with
      | none => rw [he] at h; cases h
      | some e =>
        rw [he] at h
        cases h
        simp [hb]
    · rw [if_neg hl] at h
      by_cases hb : t = biasT
      · rw [if_pos hb] at h
        cases h
        simp [hb]
      · rw [if_neg hb] at h
        cases h
        simp [hb]

/-- The bias/light scan collects exactly the `Bias Frame` data of the
listing, in order. -/
theorem bscan_biases (l : List FitsFile) :
    ∀ (acc b : BScan), exFold bscanStep acc l = Except.ok b →
      b.biases = acc.biases ++ biasDatas l := by
  induction l with
  | nil =>
    intro acc b h
    simp only [exFold] at h
    cases h
    simp [biasDatas]
  | cons f rest ih =>
    intro acc b h
    simp only [exFold] at h
    cases hs : bscanStep acc f with
    | error e => rw [hs] at h; cases h
    | ok acc1 =>
      rw [hs] at h
      have h1 := ih acc1 b h
      have h2 := bscanStep_ok_biases acc f acc1 hs
      rw [h1, h2]
      by_cases hb : f.hdr.imagetyp = some biasT <;>
        simp [biasDatas, List.filterMap_cons, hb]

/-- A successful `fits.PrimaryHDU` construction returns the file it was
given. -/
theorem mkPrimaryHDU_ok (hdr : Header) (d : Option Image) (f : FitsFile)
    (h : mkPrimaryHDU hdr d = Except.ok f) : f = FitsFile.mk hdr d := by
  unfold mkPrimaryHDU at h
  cases d with
  | none => cases h
  | some img => cases h; rfl

/-- C4: for every bias stack of size ≥ 1 (indeed for every run on which
`get_unfiltered_calibimages`'s body completes), the persisted MasterBias is
the per-pixel median across the stacked bias frames of the target directory
(`stackMedianO`/`npMedian` sort and take the middle, not the mean); in
particular — see the witness — a one-pixel outlier does not affect the
corresponding MasterBias pixel. -/
theorem C4_masterbias_is_median (s : RunState) (p : RunState × Option ℚ)
    (h : get_unfiltered_body s = Except.ok p) :
    (mcalibLookup p.1.mcalib mbiasName).map FitsFile.data
      = some (stackMedianO (biasDatas s.tfiles)) := by
  unfold get_unfiltered_body at h
  split at h
  · cases h
  · cases hb : exFold bscanStep (BScan.mk [] none none) s.tfiles with
    | error e => rw [hb] at h; cases h
    | ok b =>
      rw [hb] at h
      dsimp only at h
      cases hh1 : mkPrimaryHDU (headerOf b.bhdr) (stackMedianO b.biases) with
      | error e => rw [hh1] at h; cases h
      | ok hdu1 =>
        rw [hh1] at h
        have hq1 := mkPrimaryHDU_ok _ _ _ hh1
        subst hq1
        simp only [writeNew, mcalibLookup] at h
        cases hd : exFold dscanStep (DScan.mk [] none none) s.dfiles with
        | error e => rw [hd] at h; cases h
        | ok d =>
          rw [hd] at h
          dsimp only at h
          cases hr : rescaleDarks d.darks (stackMedianO b.biases) d.dexp b.lexp with
          | error e => rw [hr] at h; cases h
          | ok rs =>
            rw [hr] at h
            dsimp only at h
            cases hh2 : mkPrimaryHDU (headerOf d.dhdr) (stackMedianO rs) with
            | error e => rw [hh2] at h; cases h
            | ok hdu2 =>
              rw [hh2] at h
              have hq2 := mkPrimaryHDU_ok _ _ _ hh2
              subst hq2
              cases h
              have hbb := bscan_biases s.tfiles (BScan.mk [] none none) b hb
              simp only [writeOver, mcalibReplace, mcalibLookup]
              simp [hbb, mbiasName, mdarkName]

/-- C4 witness: on the stack 10, 1000 (one-pixel outlier), 11 the persisted
MasterBias pixel is the median 11 — the outlier is rejected exactly as for
the stack 10, 12, 11 of the spec's example. -/
theorem C4_masterbias_is_median_witness :
    (mcalibLookup c4Result.mcalib mbiasName).map FitsFile.data
      = some (stackMedianO (biasDatas c4State.tfiles))
    ∧ (mcalibLookup c4Result.mcalib mbiasName).map FitsFile.data = some (some [[11]]) :=
  ⟨C4_masterbias_is_median c4State (c4Result, some 60) (by decide), by decide⟩

/-- C5 (counterexample): construction does fail on an empty stack, but not as
claimed: a run with zero bias frames and a run with zero dark frames abort
with the *identical* generic `TypeError` (astropy rejecting the scalar NaN of
the empty-stack reduction at the HDU construction) — an outcome that is the
same for both missing roles, so no diagnostic names the missing role or
filter. -/
theorem C5_no_role_diagnostic_counterexample :
    get_unfiltered_body c5aState = Except.error PyErr.typeErr
    ∧ get_unfiltered_body c5cState = Except.error PyErr.typeErr
    ∧ get_unfiltered_body c5aState = get_unfiltered_body c5cState :=
  ⟨by decide, by decide, by decide⟩

/-- C5 (amended): for every run in which zero frames are found for a required
role (bias here, proved for every such run; flat for a filter used by light
frames in the second conjunct), master-frame construction aborts with a fatal
error — but an accidental one: `np.median`/`np.average` of the empty stack
yield a scalar NaN with only a RuntimeWarning, and `fits.PrimaryHDU` then
raises a generic `TypeError` ("data object should have at least one
dimension") at the master-frame write (lines 88/112/185); no diagnostic names
the missing role or filter, and no master frame is written for it. -/
theorem C5_empty_stack_crash :
    (∀ (s : RunState) (b : BScan), s.mcalibExists = false →
        exFold bscanStep (BScan.mk [] none none) s.tfiles = Except.ok b → b.biases = [] →
        get_unfiltered_body s = Except.error PyErr.typeErr)
    ∧ get_filtered_body c5bState = Except.error PyErr.typeErr := by
  constructor
  · intro s b hmc hb hempty
    unfold get_unfiltered_body
    rw [hmc]
    simp only [Bool.false_eq_true, if_false]
    rw [hb]
    dsimp only
    rw [hempty]
    rfl
  · decide

/-- C5 witness: the amended theorem's universal part applied to the concrete
bias-less run. -/
theorem C5_empty_stack_crash_witness :
    get_unfiltered_body c5aState = Except.error PyErr.typeErr :=
  C5_empty_stack_crash.1 c5aState (BScan.mk [] none (some 60)) rfl (by decide) rfl

/-- Splitting an error-propagating fold over an append. -/
theorem exFold_append {α β : Type} (g : β → α → Except PyErr β) (l1 l2 : List α) :
    ∀ b, exFold g b (l1 ++ l2)
      = (match exFold g b l1 with
         | Except.error e => Except.error e
         | Except.ok b' => exFold g b' l2) := by
  induction l1 with
  | nil => intro b; simp [exFold]
  | cons x xs ih =>
    intro b
    simp only [List.cons_append, exFold]
    cases g b x <;> simp [ih]

/-- An element every step ignores can be dropped from the fold. -/
theorem exFold_skip {α β : Type} (g : β → α → Except PyErr β) (a : α)
    (ha : ∀ b, g b a = Except.ok b) (l1 l2 : List α) :
    ∀ b, exFold g b (l1 ++ a :: l2) = exFold g b (l1 ++ l2) := by
  intro b
  rw [exFold_append, exFold_append]
  cases exFold g b l1 with
  | error e => rfl
  | ok b' => simp [exFold, ha b']

/-- The bias/light scan ignores a file whose tag is neither `Bias Frame` nor
`Light Frame`. -/
theorem bscanStep_skip (f : FitsFile) (t : String) (ht : f.hdr.imagetyp = some t)
    (hb : ¬ (t = biasT)) (hl : ¬ (t = lightT)) (b : BScan) :
    bscanStep b f = Except.ok b := by
  unfold bscanStep
  rw [ht]
  dsimp only
  rw [if_neg hl, if_neg hb]

/-- The filter collection ignores a file that is neither flat nor light. -/
theorem filScanStep_skip (f : FitsFile) (t : String) (ht : f.hdr.imagetyp = some t)
    (hf : ¬ (t = flatT)) (hl : ¬ (t = lightT)) (b : List String) :
    filScanStep b f = Except.ok b := by
  unfold filScanStep
  rw [ht]
  dsimp only
  rw [if_neg (by simp [hf, hl])]

/-- The per-filter flat collection ignores a file that is not a flat. -/
theorem flatScanStep_skip (i : String) (f : FitsFile) (t : String)
    (ht : f.hdr.imagetyp = some t) (hf : ¬ (t = flatT)) (b : FScan) :
    flatScanStep i b f = Except.ok b := by
  unfold flatScanStep
  rw [ht]
  dsimp only
  rw [if_neg hf]

/-- The per-filter loop of `get_filtered_calibimages` writes the same
calibration store for two target listings whose per-filter flat scans agree. -/
theorem filFold_mcalib (tf1 tf2 : List FitsFile) (mb : List (Option Image))
    (hsc : ∀ i, exFold (flatScanStep i) (FScan.mk [] none) tf1
      = exFold (flatScanStep i) (FScan.mk [] none) tf2) (fils : List String) :
    ∀ (u v : RunState), u.mcalib = v.mcalib →
      Except.map RunState.mcalib (exFold (filStep tf1 mb) u fils)
        = Except.map RunState.mcalib (exFold (filStep tf2 mb) v fils) := by
  induction fils with
  | nil => intro u v hm; simp [exFold, Except.map, hm]
  | cons i rest ih =>
    intro u v hm
    simp only [exFold]
    unfold filStep
    rw [hsc i]
    cases hfs : exFold (flatScanStep i) (FScan.mk [] none) tf2 with
    | error e => simp
    | ok fs =>
      dsimp only
      cases hbf : buildFlat mb fs.flats with
      | error e => simp
      | ok mf =>
        dsimp only
        cases hph : mkPrimaryHDU (headerOf fs.fhdr) mf with
        | error e => simp
        | ok hdu =>
          dsimp only
          apply ih
          simp [writeOver, hm]

/-- Dropping a file with an unrecognized tag does not change the master bias
and dark `get_unfiltered_calibimages`'s body computes. -/
theorem unfiltered_skips_unrecognized (s : RunState) (l1 l2 : List FitsFile)
    (f : FitsFile) (t : String) (ht : f.hdr.imagetyp = some t)
    (hb : ¬ (t = biasT)) (hl : ¬ (t = lightT)) :
    Except.map (fun p => (p.1.mcalib, p.2))
        (get_unfiltered_body { s with tfiles := l1 ++ f :: l2 })
      = Except.map (fun p => (p.1.mcalib, p.2))
        (get_unfiltered_body { s with tfiles := l1 ++ l2 }) := by
  unfold get_unfiltered_body
  dsimp only
  by_cases hmc : s.mcalibExists = true
  · simp [hmc]
  · simp only [hmc, if_false, Bool.false_eq_true]
    rw [exFold_skip bscanStep f (bscanStep_skip f t ht hb hl) l1 l2]
    cases hbs : exFold bscanStep (BScan.mk [] none none) (l1 ++ l2) with
    | error e => rfl
    | ok b =>
      dsimp only
      cases hh1 : mkPrimaryHDU (headerOf b.bhdr) (stackMedianO b.biases) with
      | error e => rfl
      | ok hdu1 =>
        dsimp only
        simp only [writeNew, mcalibLookup]
        cases hds : exFold dscanStep (DScan.mk [] none none) s.dfiles with
        | error e => rfl
        | ok d =>
          dsimp only
          cases hr : rescaleDarks d.darks (stackMedianO b.biases) d.dexp b.lexp with
          | error e => rfl
          | ok rs =>
            dsimp only
            cases hh2 : mkPrimaryHDU (headerOf d.dhdr) (stackMedianO rs) with
            | error e => rfl
            | ok hdu2 => rfl

/-- Dropping a file with an unrecognized tag does not change the filter list
and master flats `get_filtered_calibimages`'s body computes. -/
theorem filtered_skips_unrecognized (s : RunState) (l1 l2 : List FitsFile)
    (f : FitsFile) (t : String) (ht : f.hdr.imagetyp = some t)
    (hf : ¬ (t = flatT)) (hl : ¬ (t = lightT)) :
    Except.map (fun p => (p.1.mcalib, p.2))
        (get_filtered_body { s with tfiles := l1 ++ f :: l2 })
      = Except.map (fun p => (p.1.mcalib, p.2))
        (get_filtered_body { s with tfiles := l1 ++ l2 }) := by
  unfold get_filtered_body
  dsimp only
  cases hmb : exFold mbScanStep [] s.mcalib with
  | error e => rfl
  | ok mb =>
    dsimp only
    rw [exFold_skip filScanStep f (filScanStep_skip f t ht hf hl) l1 l2]
    cases hfl : exFold filScanStep [] (l1 ++ l2) with
    | error e => rfl
    | ok fils =>
      dsimp only
      have hsc : ∀ i, exFold (flatScanStep i) (FScan.mk [] none) (l1 ++ f :: l2)
          = exFold (flatScanStep i) (FScan.mk [] none) (l1 ++ l2) :=
        fun i => exFold_skip (flatScanStep i) f (flatScanStep_skip i f t ht hf) l1 l2 _
      have hff := filFold_mcalib (l1 ++ f :: l2) (l1 ++ l2) mb hsc fils
        { s with tfiles := l1 ++ f :: l2 } { s with tfiles := l1 ++ l2 } rfl
      cases hx : exFold (filStep (l1 ++ f :: l2) mb) { s with tfiles := l1 ++ f :: l2 } fils with
      | error e =>
        cases hy : exFold (filStep (l1 ++ l2) mb) { s with tfiles := l1 ++ l2 } fils with
        | error e' =>
          rw [hx, hy] at hff
          simp only [Except.map] at hff
          cases hff
          rfl
        | ok v =>
          rw [hx, hy] at hff
          simp [Except.map] at hff
      | ok u =>
        cases hy : exFold (filStep (l1 ++ l2) mb) { s with tfiles := l1 ++ l2 } fils with
        | error e' =>
          rw [hx, hy] at hff
          simp [Except.map] at hff
        | ok v =>
          rw [hx, hy] at hff
          simp only [Except.map] at hff
          have hmc2 := Except.ok.inj hff
          simp [Except.map, hmc2]

/-- C6 (counterexample): a file whose `IMAGETYP` key is missing entirely is
not skipped — reading the key raises `KeyError` and the run aborts, both in
`get_unfiltered_calibimages`'s body and, with a populated calibration store,
in `get_filtered_calibimages`'s body. -/
theorem C6_missing_tag_counterexample :
    get_unfiltered_body c6mState = Except.error PyErr.keyError
    ∧ get_filtered_body (isrState [noTagFile] c5bMcal) = Except.error PyErr.keyError :=
  ⟨by decide, by decide⟩

/-- C6 (amended): a file whose `IMAGETYP` carries an *unrecognized value* is
skipped without aborting the run and is excluded from all master-frame
computations (inserting it anywhere in the listing changes neither the
persisted calibration store nor the returned exposure time / filter list);
but a file whose `IMAGETYP` key is *missing* raises `KeyError` and aborts the
run (see the counterexample). -/
theorem C6_unrecognized_excluded (s : RunState) (l1 l2 : List FitsFile)
    (f : FitsFile) (t : String) (ht : f.hdr.imagetyp = some t)
    (hb : ¬ (t = biasT)) (_hd : ¬ (t = darkT)) (hf : ¬ (t = flatT)) (hl : ¬ (t = lightT)) :
    Except.map (fun p => (p.1.mcalib, p.2))
        (get_unfiltered_body { s with tfiles := l1 ++ f :: l2 })
      = Except.map (fun p => (p.1.mcalib, p.2))
        (get_unfiltered_body { s with tfiles := l1 ++ l2 })
    ∧ Except.map (fun p => (p.1.mcalib, p.2))
        (get_filtered_body { s with tfiles := l1 ++ f :: l2 })
      = Except.map (fun p => (p.1.mcalib, p.2))
        (get_filtered_body { s with tfiles := l1 ++ l2 }) :=
  ⟨unfiltered_skips_unrecognized s l1 l2 f t ht hb hl,
   filtered_skips_unrecognized s l1 l2 f t ht hf hl⟩

/-- C6 witness: inserting a `Junk`-tagged frame between a bias and a light
frame changes nothing in either builder. -/
theorem C6_unrecognized_excluded_witness :
    junkFile.hdr.imagetyp = some junkTag
    ∧ Except.map (fun p => (p.1.mcalib, p.2))
        (get_unfiltered_body { c6wBase with tfiles := [mkBias [[3]]] ++ junkFile :: [mkLight 60 filV [[100]]] })
      = Except.map (fun p => (p.1.mcalib, p.2))
        (get_unfiltered_body { c6wBase with tfiles := [mkBias [[3]]] ++ [mkLight 60 filV [[100]]] })
    ∧ Except.map (fun p => (p.1.mcalib, p.2))
        (get_filtered_body { c6wBase with tfiles := [mkBias [[3]]] ++ junkFile :: [mkLight 60 filV [[100]]] })
      = Except.map (fun p => (p.1.mcalib, p.2))
        (get_filtered_body { c6wBase with tfiles := [mkBias [[3]]] ++ [mkLight 60 filV [[100]]] }) :=
  ⟨rfl,
   (C6_unrecognized_excluded c6wBase [mkBias [[3]]] [mkLight 60 filV [[100]]] junkFile junkTag
      rfl (by decide) (by decide) (by decide) (by decide)).1,
   (C6_unrecognized_excluded c6wBase [mkBias [[3]]] [mkLight 60 filV [[100]]] junkFile junkTag
      rfl (by decide) (by decide) (by decide) (by decide)).2⟩

/-- C7 (counterexample): the directory state any first invocation leaves
behind has `mcalib` created (line 64 runs first); a second full-pipeline run
on it fails immediately with `FileExistsError` from `os.mkdir`, so running
the pipeline twice does not succeed, let alone reproduce outputs. -/
theorem C7_second_run_counterexample :
    get_unfiltered_body c7State = Except.error PyErr.fileExistsErr
    ∧ ISR_main_body c7State targetName = Except.error PyErr.fileExistsErr :=
  ⟨by decide, by decide⟩

/-- C7 (amended): re-running the full pipeline on a directory whose `mcalib`
already exists (as after any prior invocation) always fails with
`FileExistsError` at `os.mkdir(dirtarget + '/mcalib')` (line 64) — prior
master files are never overwritten (`mbias.fits` is even written without
`overwrite=True`), and no second set of calibrated outputs is produced. -/
theorem C7_rerun_fails (s : RunState) (t : String) (h : s.mcalibExists = true) :
    get_unfiltered_body s = Except.error PyErr.fileExistsErr
    ∧ ISR_main_body s t = Except.error PyErr.fileExistsErr := by
  constructor
  · simp [get_unfiltered_body, h]
  · simp [ISR_main_body, get_unfiltered_body, h]

/-- C7 witness: the amended theorem applied to the concrete rerun state. -/
theorem C7_rerun_fails_witness :
    c7State.mcalibExists = true
    ∧ ISR_main_body c7State targetName = Except.error PyErr.fileExistsErr :=
  ⟨rfl, (C7_rerun_fails c7State targetName rfl).2⟩

/-- Under well-formed calibration headers, the `mcalib` scan of
`instrument_signature_removal` appends exactly the collected bias, dark and
flat data to the accumulators and keeps the last dark exposure. -/
theorem isrScan_ok (fil : String) (mcal : List (String × FitsFile)) :
    mcalScanOK mcal = true → ∀ acc : IsrAcc,
      exFold (isrScanStep fil) acc mcal
        = Except.ok (IsrAcc.mk (acc.mflat ++ collectFlat fil mcal)
            (acc.mbias ++ collectBias mcal)
            (acc.mdark ++ collectDark mcal) (orD (lastDexp mcal) acc.dexp)) := by
  induction mcal with
  | nil =>
    intro h acc
    simp [exFold, collectFlat, collectBias, collectDark, lastDexp, orD]
  | cons nf rest ih =>
    intro h acc
    rw [mcalScanOK, Bool.and_eq_true] at h
    obtain ⟨h1, h2⟩ := h
    simp only [exFold, isrScanStep]
    cases ht : nf.2.hdr.imagetyp with
    | none => rw [ht] at h1; cases h1
    | some t =>
      rw [ht] at h1
      dsimp only
      rw [Bool.and_eq_true] at h1
      obtain ⟨hde, hfn⟩ := h1
      by_cases hD : t = darkT
      · have hB : ¬ (t = biasT) := by rw [hD]; decide
        have hF : ¬ (t = flatT) := by rw [hD]; decide
        rw [if_pos hD] at hde
        cases he : nf.2.hdr.exptime with
        | none => rw [he] at hde; cases hde
        | some e =>
          rw [if_neg hB, if_pos hD]
          dsimp only
          rw [ih h2]
          cases hld : lastDexp rest <;>
            simp [collectFlat, collectBias, collectDark, lastDexp, orD, ht, hB, hD, hF, he,
              biasT, darkT, flatT, lightT, List.filterMap_cons, hld]
      · by_cases hF : t = flatT
        · have hB : ¬ (t = biasT) := by rw [hF]; decide
          rw [if_pos hF] at hfn
          cases hfl : nf.2.hdr.filterName with
          | none => rw [hfl] at hfn; cases hfn
          | some fl =>
            rw [if_neg hB, if_neg hD, if_pos hF]
            dsimp only
            by_cases hfil : fl = fil
            · rw [if_pos hfil]
              rw [ih h2]
              cases hld : lastDexp rest <;>
                simp [collectFlat, collectBias, collectDark, lastDexp, orD, ht, hB, hD, hF,
                  hfl, hfil, biasT, darkT, flatT, lightT, List.filterMap_cons, hld]
            · rw [if_neg hfil]
              rw [ih h2]
              cases hld : lastDexp rest <;>
                simp [collectFlat, collectBias, collectDark, lastDexp, orD, ht, hB, hD, hF,
                  hfl, hfil, biasT, darkT, flatT, lightT, List.filterMap_cons, hld]
        · by_cases hB : t = biasT
          · rw [if_pos hB, if_neg hD, if_neg hF]
            dsimp only
            rw [ih h2]
            cases hld : lastDexp rest <;>
              simp [collectFlat, collectBias, collectDark, lastDexp, orD, ht, hB, hD, hF,
                biasT, darkT, flatT, lightT, List.filterMap_cons, hld]
          · rw [if_neg hB, if_neg hD, if_neg hF]
            dsimp only
            rw [ih h2]
            have hB' : ¬ (t = "Bias Frame") := hB
            have hD' : ¬ (t = "Dark Frame") := hD
            have hF' : ¬ (t = "Flat Field") := hF
            cases hld : lastDexp rest <;>
              simp [collectFlat, collectBias, collectDark, lastDexp, orD, ht, hB', hD', hF',
                biasT, darkT, flatT, lightT, List.filterMap_cons, hld]

/-- A successful `mcalib` scan certifies the listing's headers. -/
theorem isrScan_ok_of (fil : String) (mcal : List (String × FitsFile)) :
    ∀ (acc acc' : IsrAcc), exFold (isrScanStep fil) acc mcal = Except.ok acc' →
      mcalScanOK mcal = true := by
  induction mcal with
  | nil => intro acc acc' h; rfl
  | cons nf rest ih =>
    intro acc acc' h
    simp only [exFold] at h
    cases hs : isrScanStep fil acc nf with
    | error e => rw [hs] at h; cases h
    | ok acc1 =>
      rw [hs] at h
      rw [mcalScanOK, Bool.and_eq_true]
      refine ⟨?_, ih acc1 acc' h⟩
      unfold isrScanStep at hs
      cases ht : nf.2.hdr.imagetyp with
      | none => rw [ht] at hs; cases hs
      | some t =>
        rw [ht] at hs
        dsimp only at hs
        dsimp only
        by_cases hD : t = darkT
        · have hF : ¬ (t = flatT) := by rw [hD]; decide
          rw [if_pos hD] at hs
          cases he : nf.2.hdr.exptime with
          | none => rw [he] at hs; cases hs
          | some e => simp [hD, hF, he, biasT, darkT, flatT, lightT]
        · by_cases hF : t = flatT
          · rw [if_neg hD, if_pos hF] at hs
            cases hfn : nf.2.hdr.filterName with
            | none => rw [hfn] at hs; cases hs
            | some fl => simp [hD, hF, hfn, biasT, darkT, flatT, lightT]
          · simp [hD, hF]

/-- First-defined choice is idempotent in its default. -/
theorem orD_orD (x d : Option ℚ) : orD x (orD x d) = orD x d := by
  cases x <;> rfl

/-- Entries of an overwrite-write into the output store either pre-existed or
carry the written filter directory. -/
theorem outReplace_mem (l : List OutEntry) (d n : String) (g : FitsFile) :
    ∀ o ∈ outReplace l d n g, o ∈ l ∨ o.filterDir = d := by
  induction l with
  | nil =>
    intro o ho
    simp only [outReplace, List.mem_singleton] at ho
    right
    rw [ho]
  | cons x xs ih =>
    intro o ho
    unfold outReplace at ho
    by_cases hc : x.filterDir = d ∧ x.fname = n
    · rw [if_pos hc] at ho
      rcases List.mem_cons.mp ho with h1 | h2
      · right; rw [h1]
      · left; exact List.mem_cons_of_mem _ h2
    · rw [if_neg hc] at ho
      rcases List.mem_cons.mp ho with h1 | h2
      · left; rw [h1]; exact List.mem_cons_self _ _
      · rcases ih o h2 with h3 | h4
        · left; exact List.mem_cons_of_mem _ h3
        · right; exact h4

/-- One light-frame iteration only writes outputs of the current filter and
touches nothing else of the directory state. -/
theorem lightStep_pres (fil target : String) (sat : ℤ) (mb md mf : Option Image)
    (u u' : RunState) (nf : ℕ × FitsFile)
    (h : lightStep fil target sat mb md mf u nf = Except.ok u') :
    u'.isrExists = u.isrExists ∧ u'.isrDirs = u.isrDirs ∧ u'.mcalib = u.mcalib
    ∧ ∀ o ∈ u'.outputs, o ∈ u.outputs ∨ o.filterDir = fil := by
  unfold lightStep at h
  cases ht : nf.2.hdr.imagetyp with
  | none => rw [ht] at h; cases h
  | some t =>
    rw [ht] at h
    dsimp only at h
    by_cases hl : t = lightT
    · rw [if_pos hl] at h
      cases hfn : nf.2.hdr.filterName with
      | none => rw [hfn] at h; cases h
      | some fl =>
        rw [hfn] at h
        dsimp only at h
        by_cases hf : fl = fil
        · rw [if_pos hf] at h
          cases hph : mkPrimaryHDU
              (Header.mk (some t) nf.2.hdr.exptime (some fl) (some sat))
              (calibData nf.2.data mb md mf) with
          | error e => rw [hph] at h; cases h
          | ok hdu =>
            rw [hph] at h
            dsimp only at h
            cases h
            exact ⟨rfl, rfl, rfl, fun o ho => outReplace_mem _ _ _ _ o ho⟩
        · rw [if_neg hf] at h
          cases h
          exact ⟨rfl, rfl, rfl, fun o ho => Or.inl ho⟩
    · rw [if_neg hl] at h
      cases h
      exact ⟨rfl, rfl, rfl, fun o ho => Or.inl ho⟩

/-- The light-frame loop preserves the directory flags and only adds outputs
of the current filter. -/
theorem lightFold_pres (fil target : String) (sat : ℤ) (mb md mf : Option Image)
    (l : List (ℕ × FitsFile)) :
    ∀ (u u' : RunState), exFold (lightStep fil target sat mb md mf) u l = Except.ok u' →
      u'.isrExists = u.isrExists ∧ u'.isrDirs = u.isrDirs ∧ u'.mcalib = u.mcalib
      ∧ ∀ o ∈ u'.outputs, o ∈ u.outputs ∨ o.filterDir = fil := by
  induction l with
  | nil =>
    intro u u' h
    simp only [exFold] at h
    cases h
    exact ⟨rfl, rfl, rfl, fun o ho => Or.inl ho⟩
  | cons x xs ih =>
    intro u u' h
    simp only [exFold] at h
    cases hs : lightStep fil target sat mb md mf u x with
    | error e => rw [hs] at h; cases h
    | ok u1 =>
      rw [hs] at h
      obtain ⟨e1, e2, e3, e5⟩ := lightStep_pres fil target sat mb md mf u u1 x hs
      obtain ⟨f1, f2, f3, f5⟩ := ih u1 u' h
      refine ⟨f1.trans e1, f2.trans e2, f3.trans e3, fun o ho => ?_⟩
      rcases f5 o ho with h1 | h2
      · exact e5 o h1
      · exact Or.inr h2

/-- Inversion of one successful per-filter iteration of
`instrument_signature_removal`. -/
theorem isrFilterStep_inv (tfs : List FitsFile) (mcal : List (String × FitsFile))
    (target : String) (lexp : Option ℚ) (s s1 : RunState) (acc0 acc1 : IsrAcc) (fil : String)
    (h : isrFilterStep tfs mcal target lexp (s, acc0) fil = Except.ok (s1, acc1)) :
    exFold (isrScanStep fil) acc0 mcal = Except.ok acc1
    ∧ ∃ mb mbs md mds mf mfs sat,
        acc1.mbias = mb :: mbs ∧ acc1.mdark = md :: mds ∧ acc1.mflat = mf :: mfs
        ∧ saturationOf mb md mf lexp acc1.dexp = Except.ok sat
        ∧ s.isrExists = false ∧ ¬ fil ∈ s.isrDirs
        ∧ exFold (lightStep fil target sat mb md mf)
            { s with isrExists := true, isrDirs := s.isrDirs ++ [fil] } tfs.enum
            = Except.ok s1 := by
  unfold isrFilterStep at h
  cases hsc : exFold (isrScanStep fil) (s, acc0).2 mcal with
  | error e => rw [hsc] at h; cases h
  | ok acc =>
    rw [hsc] at h
    dsimp only at h
    cases hmb : acc.mbias with
    | nil => rw [hmb] at h; cases h
    | cons mb mbs =>
      rw [hmb] at h
      dsimp only at h
      cases hmd : acc.mdark with
      | nil => rw [hmd] at h; cases h
      | cons md mds =>
        rw [hmd] at h
        dsimp only at h
        cases hmf : acc.mflat with
        | nil => rw [hmf] at h; cases h
        | cons mf mfs =>
          rw [hmf] at h
          dsimp only at h
          cases hsat : saturationOf mb md mf lexp acc.dexp with
          | error e => rw [hsat] at h; cases h
          | ok sat =>
            rw [hsat] at h
            dsimp only at h
            by_cases hie : s.isrExists = true
            · rw [if_pos hie] at h; cases h
            · rw [if_neg hie] at h
              by_cases hdir : fil ∈ s.isrDirs
              · rw [if_pos hdir] at h; cases h
              · rw [if_neg hdir] at h
                cases hlf : exFold (lightStep fil target sat mb md mf)
                    { s with isrExists := true, isrDirs := s.isrDirs ++ [fil] } tfs.enum with
                | error e => rw [hlf] at h; cases h
                | ok s3 =>
                  rw [hlf] at h
                  cases h
                  have hie' : s.isrExists = false := by
                    revert hie
                    cases s.isrExists <;> simp
                  exact ⟨rfl, mb, mbs, md, mds, mf, mfs, sat, hmb, hmd, hmf, hsat,
                    hie', hdir, hlf⟩

/-- C9: whenever `image_filters` has two or more elements and the first
iteration of `instrument_signature_removal` succeeds, the second iteration
raises `FileExistsError` at `os.mkdir(ISR_Images)` (line 256, which runs anew
inside the loop), so the whole call errors and calibrated outputs exist for
at most one filter — every output written by the first iteration carries its
filter. -/
theorem C9_second_filter_mkdir_error (s : RunState) (target : String) (lexp : Option ℚ)
    (f1 f2 : String) (rest : List String) (s1 : RunState) (acc1 : IsrAcc)
    (h1 : isrFilterStep s.tfiles s.mcalib target lexp (s, iniAcc) f1 = Except.ok (s1, acc1))
    (hout : s.outputs = []) :
    instrument_signature_removal_body s target lexp (f1 :: f2 :: rest)
      = Except.error PyErr.fileExistsErr
    ∧ ∀ o ∈ s1.outputs, o.filterDir = f1 := by
  obtain ⟨hscan, mb, mbs, md, mds, mf, mfs, sat, hmb, hmd, hmf, hsat, hie, hdir, hlf⟩ :=
    isrFilterStep_inv s.tfiles s.mcalib target lexp s s1 iniAcc acc1 f1 h1
  have hOK := isrScan_ok_of f1 s.mcalib iniAcc acc1 hscan
  have hform := isrScan_ok f1 s.mcalib hOK iniAcc
  rw [hscan] at hform
  have hacc := Except.ok.inj hform
  have hdexp : acc1.dexp = orD (lastDexp s.mcalib) none := by rw [hacc]; rfl
  obtain ⟨hp1, hp2, hp3, hp5⟩ := lightFold_pres f1 target sat mb md mf s.tfiles.enum _ s1 hlf
  have hs1E : s1.isrExists = true := by rw [hp1]
  have hscan2 := isrScan_ok f2 s.mcalib hOK acc1
  constructor
  · unfold instrument_signature_removal_body
    simp only [exFold]
    rw [h1]
    try dsimp only
    unfold isrFilterStep
    try dsimp only
    rw [hscan2]
    try dsimp only
    rw [hmb, hmd, hmf]
    simp only [List.cons_append]
    try dsimp only
    rw [hdexp, orD_orD, ← hdexp, hsat]
    try dsimp only
    rw [hs1E]
    rfl
  · intro o ho
    rcases hp5 o ho with hin | hdirq
    · dsimp only at hin
      rw [hout] at hin
      cases hin
    · exact hdirq

/-- C9 witness: the two-filter run `V`, `R` — the first iteration succeeds
writing only `V` outputs, and the whole call fails with `FileExistsError`. -/
theorem C9_second_filter_mkdir_error_witness :
    instrument_signature_removal_body c9State targetName (some 60) [filV, filR]
      = Except.error PyErr.fileExistsErr
    ∧ ∀ o ∈ c9S1.outputs, o.filterDir = filV :=
  C9_second_filter_mkdir_error c9State targetName (some 60) filV filR [] c9S1 c9Acc1
    (by decide) rfl

/-- C10 (counterexample): a two-filter run with an `R` light frame present.
The claim says iterations after the first calibrate light frames with the
first filter's master flat; in fact the first iteration writes only the `V`
output and the second iteration never calibrates anything — the call aborts
with `FileExistsError` before reaching any light frame, so no `R` output
(with any flat) is ever produced. -/
theorem C10_no_second_filter_output_counterexample :
    isrFilterStep c10State.tfiles c10State.mcalib targetName (some 60) (c10State, iniAcc) filV
      = Except.ok (c10S1, c10Acc1)
    ∧ c10S1.outputs.map OutEntry.filterDir = [filV]
    ∧ instrument_signature_removal_body c10State targetName (some 60) [filV, filR]
      = Except.error PyErr.fileExistsErr :=
  ⟨by decide, by decide, by decide⟩

/-- C10 (amended): the accumulator lists `mbias`, `mdark`, `mflat` are
initialized once before the per-filter loop and never cleared, and element
`[0]` of each is always selected — so after a successful first iteration the
first filter's flats head the list, the second iteration's rescan still
selects the first filter's master flat (`mflat[0]`); but no light frame is
calibrated in that iteration, because it aborts at `os.mkdir(ISR_Images)`
with `FileExistsError` before its light loop. -/
theorem C10_stale_accumulators (s : RunState) (target : String) (lexp : Option ℚ)
    (f1 f2 : String) (s1 : RunState) (acc1 : IsrAcc)
    (h1 : isrFilterStep s.tfiles s.mcalib target lexp (s, iniAcc) f1 = Except.ok (s1, acc1)) :
    acc1.mflat = collectFlat f1 s.mcalib
    ∧ (∃ acc2, exFold (isrScanStep f2) acc1 s.mcalib = Except.ok acc2
        ∧ acc2.mflat.head? = acc1.mflat.head?)
    ∧ isrFilterStep s.tfiles s.mcalib target lexp (s1, acc1) f2
        = Except.error PyErr.fileExistsErr := by
  obtain ⟨hscan, mb, mbs, md, mds, mf, mfs, sat, hmb, hmd, hmf, hsat, hie, hdir, hlf⟩ :=
    isrFilterStep_inv s.tfiles s.mcalib target lexp s s1 iniAcc acc1 f1 h1
  have hOK := isrScan_ok_of f1 s.mcalib iniAcc acc1 hscan
  have hform := isrScan_ok f1 s.mcalib hOK iniAcc
  rw [hscan] at hform
  have hacc := Except.ok.inj hform
  have hdexp : acc1.dexp = orD (lastDexp s.mcalib) none := by rw [hacc]; rfl
  obtain ⟨hp1, hp2, hp3, hp5⟩ := lightFold_pres f1 target sat mb md mf s.tfiles.enum _ s1 hlf
  have hs1E : s1.isrExists = true := by rw [hp1]
  have hscan2 := isrScan_ok f2 s.mcalib hOK acc1
  refine ⟨?_, ⟨_, hscan2, ?_⟩, ?_⟩
  · rw [hacc]
    simp [iniAcc]
  · rw [hmf]
    simp
  · unfold isrFilterStep
    try dsimp only
    rw [hscan2]
    try dsimp only
    rw [hmb, hmd, hmf]
    simp only [List.cons_append]
    try dsimp only
    rw [hdexp, orD_orD, ← hdexp, hsat]
    try dsimp only
    rw [hs1E]
    rfl

/-- C10 witness: the amended theorem applied to the concrete two-filter run:
the rescan for `R` still selects filter `V`'s master flat, and the iteration
errors before calibrating. -/
theorem C10_stale_accumulators_witness :
    c10Acc1.mflat = collectFlat filV c10State.mcalib
    ∧ (∃ acc2, exFold (isrScanStep filR) c10Acc1 c10State.mcalib = Except.ok acc2
        ∧ acc2.mflat.head? = c10Acc1.mflat.head?)
    ∧ isrFilterStep c10State.tfiles c10State.mcalib targetName (some 60) (c10S1, c10Acc1) filR
        = Except.error PyErr.fileExistsErr :=
  C10_stale_accumulators c10State targetName (some 60) filV filR c10S1 c10Acc1 (by decide)

end ISRv
